import Mathlib

/-!
Shallow embedding of the span registry in
`src/tracing-subscriber/src/registry/sharded.rs` (EmbarkStudios/tracing).

The registry is translated definition by definition: the sharded slab pool
becomes a list of (occupied, data) slots with dense integer keys, the
thread-local state of the single modelled thread (`current_spans`,
`CLOSE_COUNT`, the filter context and `std::thread::panicking()`) is carried
explicitly in the `Registry` record, the global diagnostic state
(`SPAN_TRACKER`, `LIVE_SPANS`, `OPEN_SPANS`, `IN_SPANS`) is carried as well,
and panics are modelled as `Except.error` with a structured payload.
Machine integers are `Nat` with explicit wrap-around where the source can
overflow (`u8` filter counter, `usize` reference counts).  Atomic memory
orderings are recorded syntactically: every `fetch_add` / `fetch_sub` /
`fence` on a span's `ref_count` appends an `AtomicEvent` carrying the
ordering the source requests.
-/

namespace ShardedRegistry

/-! ### List helpers (indexing and update, self-contained) -/

def lnth {α : Type} : List α → Nat → Option α
  | [], _ => none
  | a :: _, 0 => some a
  | _ :: t, n + 1 => lnth t n

def lset {α : Type} : List α → Nat → α → List α
  | [], _, _ => []
  | _ :: t, 0, a => a :: t
  | h :: t, n + 1, a => h :: lset t n a

/-! ### Machine integers

The registry runs on a 64-bit target: `usize` arithmetic wraps at `2 ^ 64`
(release semantics), the `u8` filter counter wraps at `2 ^ 8`. -/

def usizeSize : Nat := 2 ^ 64

def usizeMax : Nat := usizeSize - 1

/-- Wrapping `usize` increment, as performed by `AtomicUsize::fetch_add(1, _)`. -/
def rcAdd1 (n : Nat) : Nat := (n + 1) % usizeSize

/-- Wrapping `usize` decrement, as performed by `AtomicUsize::fetch_sub(1, _)`
and by `Cell::set(c - 1)` in release mode. -/
def rcSub1 (n : Nat) : Nat := if n = 0 then usizeMax else n - 1

/-! ### Atomic-ordering trace and panic payloads -/

/-- Memory orderings named by the source's atomic operations. -/
inductive MemOrder where
  | relaxed
  | release
  | acquire
  deriving DecidableEq, Repr

/-- One atomic action on a span entry's `ref_count`, with the ordering the
source requests: `rcAdd` for `fetch_add`, `rcSub` for `fetch_sub`, `fence`
for `std::sync::atomic::fence`. -/
inductive AtomicEvent where
  | rcAdd (ord : MemOrder)
  | rcSub (ord : MemOrder)
  | fence (ord : MemOrder)
  deriving DecidableEq, Repr

/-- Structured panic payloads, one per `panic!` / failed `assert` / failed
`unwrap` reachable in the translated code, plus the recursion bound of the
modelled dispatcher. -/
inductive PanicMsg where
  /-- `clone_span`: "tried to clone {id}, but no span exists with that ID". -/
  | noSpanOnClone (id : Nat)
  /-- `clone_span`: "tried to clone a span ({id}) that already closed". -/
  | spanAlreadyClosed (id : Nat)
  /-- `try_close`: "tried to drop a ref to {id}, but no such span exists!". -/
  | noSpanOnClose (id : Nat)
  /-- `SPAN_TRACKER.get(_mut)(&id).unwrap()` on a missing tracker entry. -/
  | unwrapNone
  /-- `try_close`: "reference count overflow!". -/
  | refCountOverflow
  /-- Modelling artifact: recursion bound of the dispatch cascade ran out. -/
  | fuelExhausted
  deriving DecidableEq, Repr

/-- A close attempt submitted through the thread's active default dispatcher
(`dispatcher::get_default`), as opposed to a direct call on the registry. -/
inductive CloseReq where
  | viaDispatcher (id : Nat)
  deriving DecidableEq, Repr

/-! ### Span data entries -/

/-- Entry of the diagnostic `SPAN_TRACKER` map. -/
structure SpanInfo where
  too_many_refs : Nat
  panicking : Nat
  deriving DecidableEq, Repr

/-- `SpanInfo::default()`. -/
def SpanInfo.zero : SpanInfo := { too_many_refs := 0, panicking := 0 }

/-- The `ExtensionsInner` typemap: entries abstracted as key/value pairs,
plus the retained hash-table capacity (load-bearing for in-place reuse). -/
structure ExtensionsInner where
  entries : List (Nat × Nat)
  cap : Nat
  deriving DecidableEq, Repr

/-- `DataInner`: the pooled record for one span.  `metadata` is an abstract
token (the static metadata pointer), `ext_poisoned` models the poison bit of
the extensions `RwLock`. -/
structure DataInner where
  filter_map : Nat
  metadata : Nat
  parent : Option Nat
  ref_count : Nat
  extensions : ExtensionsInner
  ext_poisoned : Bool
  deriving DecidableEq, Repr

/-- `Default for DataInner`: null metadata (token `0`), no parent, zero
references, empty extensions. -/
def DataInner.defaultData : DataInner :=
  { filter_map := 0, metadata := 0, parent := none, ref_count := 0,
    extensions := { entries := [], cap := 0 }, ext_poisoned := false }

/-- `Clear for DataInner::clear`: take the parent and submit one close
attempt for it through the active default subscriber (returned as a
`CloseReq`, interpreted by the modelled dispatcher), clear the extensions
map in place retaining its capacity (a poisoned lock is tolerated: the inner
value is extracted and cleared all the same), and reset the filter map to
its default.  `ref_count` and `metadata` are left untouched. -/
def DataInner.clear (d : DataInner) : DataInner × List CloseReq :=
  ({ d with parent := none,
            extensions := { entries := [], cap := d.extensions.cap },
            filter_map := 0 },
   match d.parent with
   | some p => [CloseReq.viaDispatcher p]
   | none => [])

/-! ### The slot pool (`sharded_slab::Pool`) -/

/-- The pool: a dense list of slots, each either checked out (`true`) or
free (`false`), holding its (possibly cleared-in-place) `DataInner`. -/
structure Pool where
  slots : List (Bool × DataInner)
  deriving DecidableEq, Repr

/-- Index of the first free slot (`= slots.length` when none is free):
`Pool::create_with` preferentially reuses a cleared slot. -/
def firstFree : List (Bool × DataInner) → Nat
  | [] => 0
  | (true, _) :: t => firstFree t + 1
  | (false, _) :: t => 0

/-- `Pool::get(key)`: a read reference, available only while the slot is
checked out. -/
def Pool.get (p : Pool) (idx : Nat) : Option DataInner :=
  match lnth p.slots idx with
  | some (true, d) => some d
  | _ => none

/-- Overwrite the data of a checked-out slot (used for atomic field updates). -/
def Pool.setAt (p : Pool) (idx : Nat) (d : DataInner) : Pool :=
  ⟨lset p.slots idx (true, d)⟩

/-- Mark a slot free, leaving the cleared data in place for reuse. -/
def Pool.freeAt (p : Pool) (idx : Nat) (d : DataInner) : Pool :=
  ⟨lset p.slots idx (false, d)⟩

/-- `Pool::create_with(init)`: check out the first free slot (reusing its
in-place data), or grow the pool from a default entry; run the initializer;
return the new pool and the slot key. -/
def Pool.create_with (p : Pool) (f : DataInner → DataInner) : Pool × Nat :=
  match lnth p.slots (firstFree p.slots) with
  | some s => (⟨lset p.slots (firstFree p.slots) (true, f s.2)⟩, firstFree p.slots)
  | none => (⟨p.slots ++ [(true, f DataInner.defaultData)]⟩, firstFree p.slots)

/-- The in-place data a `create_with` initializer receives: the cleared
data of the reused slot, or a fresh default entry when the pool grows. -/
def Pool.seed (p : Pool) : DataInner :=
  match lnth p.slots (firstFree p.slots) with
  | some s => s.2
  | none => DataInner.defaultData

/-! ### The per-thread span stack

Modelled from the spec: the source file uses `super::stack::SpanStack`,
which is not part of the analysed source.  The spec describes it as an
ordered stack of (ID, duplicate-count) pairs: `push` returns `true` when
the ID is newly present at the top and increments the top's duplicate count
otherwise; `pop` removes the topmost occurrence of the ID, returning `true`
when the entry was fully removed; `current` is the topmost ID. -/
structure SpanStack where
  stack : List (Nat × Nat)
  deriving DecidableEq, Repr

def SpanStack.empty : SpanStack := ⟨[]⟩

def SpanStack.current (s : SpanStack) : Option Nat :=
  s.stack.head?.map Prod.fst

def SpanStack.push (s : SpanStack) (id : Nat) : Bool × SpanStack :=
  match s.stack with
  | (tid, n) :: rest =>
    if tid = id then (false, ⟨(tid, n + 1) :: rest⟩)
    else (true, ⟨(id, 1) :: (tid, n) :: rest⟩)
  | [] => (true, ⟨[(id, 1)]⟩)

def popList : List (Nat × Nat) → Nat → Bool × List (Nat × Nat)
  | [], _ => (false, [])
  | (tid, n) :: rest, id =>
    if tid = id then
      if n ≤ 1 then (true, rest) else (false, (tid, n - 1) :: rest)
    else
      let r := popList rest id
      (r.1, (tid, n) :: r.2)

def SpanStack.pop (s : SpanStack) (id : Nat) : Bool × SpanStack :=
  let r := popList s.stack id
  (r.1, ⟨r.2⟩)

/-! ### The diagnostic `SPAN_TRACKER` map -/

def trackerLookup : List (Nat × SpanInfo) → Nat → Option SpanInfo
  | [], _ => none
  | (k, v) :: t, id => if k = id then some v else trackerLookup t id

def trackerRemove : List (Nat × SpanInfo) → Nat → List (Nat × SpanInfo)
  | [], _ => []
  | (k, v) :: t, id =>
    if k = id then trackerRemove t id else (k, v) :: trackerRemove t id

def trackerInsert (t : List (Nat × SpanInfo)) (id : Nat) (info : SpanInfo) :
    List (Nat × SpanInfo) :=
  (id, info) :: trackerRemove t id

/-! ### Span attributes (`tracing_core::span::Attributes`) -/

/-- Modelled from the spec: the parent an `Attributes` declares is exactly
one of root, contextual, or an explicit parent id (the `tracing_core`
`Parent` enum backing `is_root` / `is_contextual` / `parent()` is not part
of the analysed source). -/
inductive ParentKind where
  | root
  | contextual
  | explicitId (id : Nat)
  deriving DecidableEq, Repr

structure Attributes where
  parentKind : ParentKind
  metadata : Nat
  deriving DecidableEq, Repr

def Attributes.is_root (a : Attributes) : Bool :=
  match a.parentKind with
  | ParentKind.root => true
  | _ => false

def Attributes.is_contextual (a : Attributes) : Bool :=
  match a.parentKind with
  | ParentKind.contextual => true
  | _ => false

def Attributes.parentId (a : Attributes) : Option Nat :=
  match a.parentKind with
  | ParentKind.explicitId p => some p
  | _ => none

/-! ### The registry state

One record bundles the registry proper (`spans` pool, `next_filter_id`),
the modelled thread's thread-locals (`current_spans` slot, `CLOSE_COUNT`,
the `FILTERING` filter context, `std::thread::panicking()`), and the global
diagnostic state (`SPAN_TRACKER`, `LIVE_SPANS`, `OPEN_SPANS`, `IN_SPANS`). -/
structure Registry where
  spans : Pool
  next_filter_id : Nat
  currentSpans : Option SpanStack
  closeCount : Nat
  filterCtx : Nat
  panicking : Bool
  tracker : List (Nat × SpanInfo)
  liveSpans : Int
  openSpans : Int
  inSpans : Int
  deriving DecidableEq, Repr

/-- `Registry::default()` together with pristine thread-local and global
diagnostic state. -/
def Registry.init : Registry :=
  { spans := ⟨[]⟩, next_filter_id := 0, currentSpans := none, closeCount := 0,
    filterCtx := 0, panicking := false, tracker := [],
    liveSpans := 0, openSpans := 0, inSpans := 0 }

/-! ### ID encoding -/

/-- `idx_to_id`: `Id::from_u64(idx as u64 + 1)`.  Slab keys are dense small
integers (far below `2 ^ 64`), so the `u64` addition cannot wrap. -/
def idx_to_id (idx : Nat) : Nat := idx + 1

/-- `id_to_idx`: `id.into_u64() as usize - 1` (truncated at zero exactly as
the wrapping `usize` subtraction never is, since the ABI reserves id 0). -/
def id_to_idx (id : Nat) : Nat := id - 1

/-! ### Registry operations -/

/-- `Registry::get`. -/
def Registry.get (r : Registry) (id : Nat) : Option DataInner :=
  r.spans.get (id_to_idx id)

/-- Overwrite the entry of a live span (an atomic field update in place). -/
def Registry.setData (r : Registry) (id : Nat) (d : DataInner) : Registry :=
  { r with spans := r.spans.setAt (id_to_idx id) d }

/-- `Registry::has_per_layer_filters`. -/
def Registry.has_per_layer_filters (r : Registry) : Bool :=
  decide (0 < r.next_filter_id)

/-- `LookupSpan::register_filter`: returns `FilterId::new(next_filter_id)`
(the returned ordinal) and increments the `u8` counter, wrapping at `2 ^ 8`
(release semantics of `self.next_filter_id += 1`). -/
def Registry.register_filter (r : Registry) : Registry × Nat :=
  ({ r with next_filter_id := (r.next_filter_id + 1) % 2 ^ 8 }, r.next_filter_id)

/-- Iterate `register_filter`, discarding the returned ordinals. -/
def iterRegister : Nat → Registry → Registry
  | 0, r => r
  | n + 1, r => iterRegister n (r.register_filter).1

/-- `Subscriber::current_span`: the top of the calling thread's stack,
dereferenced into the pool; `Current::none()` on any failure. -/
def Registry.current_span (r : Registry) : Option (Nat × Nat) :=
  match r.currentSpans with
  | none => none
  | some st =>
    match st.current with
    | none => none
    | some id =>
      match r.get id with
      | none => none
      | some d => some (id, d.metadata)

/-- `Subscriber::clone_span`: panic naming the id on a stale lookup;
`fetch_add(1, Relaxed)` on the entry's `ref_count`; assert the prior count
was non-zero; refresh the diagnostic tracker entry (an `unwrap`); return a
clone of the id. -/
def Registry.clone_span (r : Registry) (id : Nat) :
    Except PanicMsg (Registry × Nat × List AtomicEvent) :=
  match r.get id with
  | none => Except.error (PanicMsg.noSpanOnClone id)
  | some d =>
    let refs := d.ref_count
    let r1 := r.setData id { d with ref_count := rcAdd1 refs }
    if refs = 0 then Except.error (PanicMsg.spanAlreadyClosed id)
    else
      match trackerLookup r1.tracker id with
      | some info =>
        Except.ok ({ r1 with tracker := trackerInsert r1.tracker id info }, id,
                   [AtomicEvent.rcAdd MemOrder.relaxed])
      | none => Except.error PanicMsg.unwrapNone

/-- `Subscriber::try_close`: on a stale lookup, bump the tracker's
`panicking` counter (an `unwrap`!) and return `false` when the thread is
panicking, panic otherwise; else `fetch_sub(1, Release)` the `ref_count`,
assert no overflow (skipped while panicking), return `false` when other
references remain (bumping `too_many_refs`, an `unwrap`), and on the final
decrement issue an `Acquire` fence, drop the tracker entry, decrement
`OPEN_SPANS` and return `true`.  The slot itself is left checked out. -/
def Registry.try_close (r : Registry) (id : Nat) :
    Except PanicMsg (Registry × Bool × List AtomicEvent) :=
  match r.get id with
  | none =>
    if r.panicking then
      match trackerLookup r.tracker id with
      | some info =>
        let info' : SpanInfo := { info with panicking := info.panicking + 1 }
        Except.ok ({ r with tracker := trackerInsert r.tracker id info' }, false, [])
      | none => Except.error PanicMsg.unwrapNone
    else Except.error (PanicMsg.noSpanOnClose id)
  | some d =>
    let refs := d.ref_count
    let r1 := r.setData id { d with ref_count := rcSub1 refs }
    if r.panicking = false ∧ usizeMax ≤ refs then Except.error PanicMsg.refCountOverflow
    else if 1 < refs then
      match trackerLookup r1.tracker id with
      | some info =>
        let info' : SpanInfo := { info with too_many_refs := info.too_many_refs + 1 }
        Except.ok ({ r1 with tracker := trackerInsert r1.tracker id info' },
          false, [AtomicEvent.rcSub MemOrder.release])
      | none => Except.error PanicMsg.unwrapNone
    else
      Except.ok ({ r1 with tracker := trackerRemove r1.tracker id,
                           openSpans := r1.openSpans - 1 },
        true, [AtomicEvent.rcSub MemOrder.release, AtomicEvent.fence MemOrder.acquire])

/-- The initializer `new_span` passes to `create_with`: set metadata,
parent and the filter map read from the thread-local filter context, and
write `ref_count = 1` into the checked-out entry. -/
def newSpanInit (md : Nat) (parent : Option Nat) (fm : Nat) (d : DataInner) : DataInner :=
  { d with metadata := md, parent := parent, filter_map := fm, ref_count := 1 }

/-- `Subscriber::new_span`: resolve the parent (root: none; contextual: the
thread's current span, cloned; otherwise the explicit parent, cloned), check
out a slot whose initializer sets metadata, parent and the filter map from
the thread-local filter context and writes `ref_count = 1`, derive the id
from the slot key, insert a fresh tracker entry and bump the diagnostic
counters.  The `cfg(debug_assertions)` block of the source is debug-only and
is not modelled. -/
def Registry.new_span (r : Registry) (attrs : Attributes) :
    Except PanicMsg (Registry × Nat) :=
  let step : Except PanicMsg (Registry × Option Nat) :=
    match attrs.parentKind with
    | ParentKind.root => Except.ok (r, none)
    | ParentKind.contextual =>
      match r.current_span with
      | some c =>
        match r.clone_span c.1 with
        | Except.error e => Except.error e
        | Except.ok x => Except.ok (x.1, some x.2.1)
      | none => Except.ok (r, none)
    | ParentKind.explicitId p =>
      match r.clone_span p with
      | Except.error e => Except.error e
      | Except.ok x => Except.ok (x.1, some x.2.1)
  match step with
  | Except.error e => Except.error e
  | Except.ok (r1, parent) =>
    let pk := r1.spans.create_with (newSpanInit attrs.metadata parent r1.filterCtx)
    let id := idx_to_id pk.2
    Except.ok ({ r1 with spans := pk.1,
                         tracker := trackerInsert r1.tracker id SpanInfo.zero,
                         liveSpans := r1.liveSpans + 1,
                         openSpans := r1.openSpans + 1 }, id)

/-- `Subscriber::enter`: push onto the per-thread stack (initializing it on
first use); when the push reports the id as newly present at the top, add
one reference via `clone_span`; bump `IN_SPANS`. -/
def Registry.enter (r : Registry) (id : Nat) : Except PanicMsg Registry :=
  let st := match r.currentSpans with
    | some st => st
    | none => SpanStack.empty
  let pr := st.push id
  let r1 := { r with currentSpans := some pr.2 }
  let step : Except PanicMsg Registry :=
    if pr.1 then
      match r1.clone_span id with
      | Except.error e => Except.error e
      | Except.ok x => Except.ok x.1
    else Except.ok r1
  match step with
  | Except.error e => Except.error e
  | Except.ok r2 => Except.ok { r2 with inSpans := r2.inSpans + 1 }

/-! ### The dispatched close path

Modelled from the spec: the observer-stack glue (`Layered::try_close` and
`dispatcher::get_default`) that surrounds the registry is not part of the
analysed source.  Per the spec, a close attempt submitted through the active
default dispatcher calls the registry's `try_close`; when it returns `true`
the observer stack runs each layer's `on_close` inside a close-guard frame
(`start_close` increments the thread-local close depth), the terminal step
calls `set_closing`, and dropping the guard decrements the depth first and
then — exactly at the outermost frame — reclaims the slot via the pool,
running `DataInner::clear` (which dispatches the parent's close attempt
before the extensions are cleared and the slot is released) and decrementing
`LIVE_SPANS`.  The returned list records, in order, the ids whose close
(`try_close` returning `true`) was observed; `fuel` bounds the cascade
depth. -/
def dispatchTryClose : Nat → Registry → Nat → Except PanicMsg (Registry × Bool × List Nat)
  | 0, _, _ => Except.error PanicMsg.fuelExhausted
  | fuel + 1, r, id =>
    match r.try_close id with
    | Except.error e => Except.error e
    | Except.ok (r1, false, _) => Except.ok (r1, false, [])
    | Except.ok (r1, true, _) =>
      let r2 := { r1 with closeCount := r1.closeCount + 1 }
      let c := r2.closeCount
      let r3 := { r2 with closeCount := rcSub1 c }
      if c = 1 then
        match r3.spans.get (id_to_idx id) with
        | none => Except.ok ({ r3 with liveSpans := r3.liveSpans - 1 }, true, [id])
        | some d =>
          match d.parent with
          | some p =>
            match dispatchTryClose fuel r3 p with
            | Except.error e => Except.error e
            | Except.ok (r4, _, l) =>
              let r5 := { r4 with spans := r4.spans.freeAt (id_to_idx id) (DataInner.clear d).1 }
              Except.ok ({ r5 with liveSpans := r5.liveSpans - 1 }, true, id :: l)
          | none =>
            let r5 := { r3 with spans := r3.spans.freeAt (id_to_idx id) (DataInner.clear d).1 }
            Except.ok ({ r5 with liveSpans := r5.liveSpans - 1 }, true, [id])
      else Except.ok (r3, true, [id])

/-- `Pool::clear(key)` on the registry's pool: a no-op on a vacant slot;
otherwise run `DataInner::clear` in place — submitting the parent's close
attempt through the active default dispatcher first — and release the slot,
its cleared data left for reuse.  Returns the close notifications emitted by
the nested cascade, in order. -/
def clearPoolSlot (fuel : Nat) (r : Registry) (idx : Nat) :
    Except PanicMsg (Registry × List Nat) :=
  match r.spans.get idx with
  | none => Except.ok (r, [])
  | some d =>
    match d.parent with
    | some p =>
      match dispatchTryClose fuel r p with
      | Except.error e => Except.error e
      | Except.ok (r1, _, l) =>
        Except.ok ({ r1 with spans := r1.spans.freeAt idx (DataInner.clear d).1 }, l)
    | none =>
      Except.ok ({ r with spans := r.spans.freeAt idx (DataInner.clear d).1 }, [])

/-- `Subscriber::exit`: pop the id from the per-thread stack if the stack
was ever initialized; when the pop fully removed the entry, release the ref
by submitting a close attempt through the active default dispatcher; always
decrement `IN_SPANS`. -/
def Registry.exit (fuel : Nat) (r : Registry) (id : Nat) : Except PanicMsg Registry :=
  let step : Except PanicMsg Registry :=
    match r.currentSpans with
    | none => Except.ok r
    | some st =>
      let pr := st.pop id
      let r1 := { r with currentSpans := some pr.2 }
      if pr.1 then
        match dispatchTryClose fuel r1 id with
        | Except.error e => Except.error e
        | Except.ok x => Except.ok x.1
      else Except.ok r1
  match step with
  | Except.error e => Except.error e
  | Except.ok r2 => Except.ok { r2 with inSpans := r2.inSpans - 1 }

/-! ### The close guard -/

/-- `CloseGuard`: the id under close, and whether `set_closing` has been
called.  The borrowed registry is passed explicitly to `drop`. -/
structure CloseGuard where
  id : Nat
  is_closing : Bool
  deriving DecidableEq, Repr

/-- `Registry::start_close`: increment the thread-local `CLOSE_COUNT` and
hand out a guard with `is_closing = false`. -/
def Registry.start_close (r : Registry) (id : Nat) : Registry × CloseGuard :=
  ({ r with closeCount := r.closeCount + 1 }, { id := id, is_closing := false })

/-- `CloseGuard::set_closing`. -/
def CloseGuard.set_closing (g : CloseGuard) : CloseGuard :=
  { g with is_closing := true }

/-- `Drop for CloseGuard`: if the thread-local is already deinitialized
(`tlOk = false`, the `try_with` error path) do nothing; otherwise read the
close depth `c`, store `c - 1` back *before* any reclamation, and — exactly
when `c = 1` (outermost close frame) and `set_closing` was called — clear
the span's slot via the pool and decrement `LIVE_SPANS`.  Returns the close
notifications emitted by the reclamation cascade, in order. -/
def CloseGuard.drop (fuel : Nat) (g : CloseGuard) (r : Registry) (tlOk : Bool) :
    Except PanicMsg (Registry × List Nat) :=
  if tlOk then
    let c := r.closeCount
    let r1 := { r with closeCount := rcSub1 c }
    if c = 1 ∧ g.is_closing = true then
      match clearPoolSlot fuel r1 (id_to_idx g.id) with
      | Except.error e => Except.error e
      | Except.ok (r2, l) => Except.ok ({ r2 with liveSpans := r2.liveSpans - 1 }, l)
    else Except.ok (r1, [])
  else Except.ok (r, [])

/-! ### Auxiliary definitions for the statements -/

/-- Invariant of the per-thread span stack: every duplicate count is at
least 1 (an entry is removed as soon as its count reaches zero). -/
def stackCountsPos : List (Nat × Nat) → Bool
  | [] => true
  | (_, n) :: t => decide (1 ≤ n) && stackCountsPos t

/-- Membership test on a list of ids. -/
def listHas : List Nat → Nat → Bool
  | [], _ => false
  | x :: xs, y => decide (x = y) || listHas xs y

/-- No id occurs twice. -/
def noDup : List Nat → Bool
  | [] => true
  | x :: xs => !listHas xs x && noDup xs

/-- A chain of live spans, child first: every id is non-zero and checked
out with `ref_count = 1`, each entry's parent is the next id in the list,
and the last entry is a root. -/
def chainOK (r : Registry) : List Nat → Bool
  | [] => true
  | id :: rest =>
    decide (1 ≤ id) &&
      match r.get id with
      | none => false
      | some d =>
        decide (d.ref_count = 1) &&
          (match rest with
           | [] => decide (d.parent = none)
           | p :: _ => decide (d.parent = some p)) &&
          chainOK r rest

/-- The registry state right after a final `try_close` (prior `ref_count`
1) on a live span observed at close depth zero, as produced inside the
modelled dispatcher: the slot keeps its data with `ref_count = 0`, the
tracker entry is gone, `OPEN_SPANS` is decremented, and the close depth is
back to zero (incremented by `start_close`, decremented by the guard). -/
def postClose (r : Registry) (id : Nat) (d : DataInner) : Registry :=
  { r with spans := r.spans.setAt (id_to_idx id) { d with ref_count := 0 },
           tracker := trackerRemove r.tracker id,
           openSpans := r.openSpans - 1,
           closeCount := 0 }

/-- A live root span entry used by the concrete witnesses. -/
def dW : DataInner :=
  { DataInner.defaultData with metadata := 7, ref_count := 1 }

/-- A one-span registry used by the concrete witnesses: span id 1 is live
with one reference and a tracker entry, and the thread has entered it. -/
def regW : Registry :=
  { Registry.init with
    spans := ⟨[(true, dW)]⟩,
    tracker := [(1, SpanInfo.zero)],
    currentSpans := some ⟨[(1, 1)]⟩ }

/-- A two-span registry used by the concrete witnesses: span 1 is the only
child of span 2, each held by exactly one reference. -/
def regChain : Registry :=
  { Registry.init with
    spans := ⟨[(true, { DataInner.defaultData with metadata := 7, ref_count := 1, parent := some 2 }),
               (true, { DataInner.defaultData with metadata := 8, ref_count := 1 })]⟩,
    tracker := [(1, SpanInfo.zero), (2, SpanInfo.zero)] }

/-- A registry observed while the thread is panicking, with no live spans
and an empty diagnostic tracker (e.g. after a stale id's span was fully
closed and reclaimed). -/
def panickingReg : Registry :=
  { Registry.init with panicking := true }

/-- The one-span registry inside an outermost close frame (`start_close`
has run once). -/
def regCG : Registry :=
  { regW with closeCount := 1 }

/-! ## Lemmas about the helpers -/

theorem lnth_eq_none {α : Type} : ∀ (l : List α) (n : Nat), l.length ≤ n → lnth l n = none
  | [], _, _ => rfl
  | _ :: t, n + 1, h => lnth_eq_none t n (Nat.le_of_succ_le_succ h)

theorem lnth_lt_of_some {α : Type} :
    ∀ (l : List α) (n : Nat) (a : α), lnth l n = some a → n < l.length := by
  intro l
  induction l with
  | nil => intro n a h; cases h
  | cons x t ih =>
    intro n a h
    cases n with
    | zero => exact Nat.succ_le_succ (Nat.zero_le _)
    | succ m => exact Nat.succ_lt_succ (ih m a h)

theorem length_lset {α : Type} : ∀ (l : List α) (n : Nat) (a : α), (lset l n a).length = l.length
  | [], _, _ => rfl
  | _ :: _, 0, _ => rfl
  | _ :: t, n + 1, a => congrArg Nat.succ (length_lset t n a)

theorem lnth_lset_self {α : Type} :
    ∀ (l : List α) (n : Nat) (a : α), n < l.length → lnth (lset l n a) n = some a := by
  intro l
  induction l with
  | nil => intro n a h; cases h
  | cons x t ih =>
    intro n a h
    cases n with
    | zero => rfl
    | succ m => exact ih m a (Nat.lt_of_succ_lt_succ h)

theorem lnth_lset_ne {α : Type} :
    ∀ (l : List α) (n m : Nat) (a : α), n ≠ m → lnth (lset l n a) m = lnth l m := by
  intro l
  induction l with
  | nil => intro n m a _; cases n <;> rfl
  | cons x t ih =>
    intro n m a hnm
    cases n with
    | zero =>
      cases m with
      | zero => exact absurd rfl hnm
      | succ k => rfl
    | succ n' =>
      cases m with
      | zero => rfl
      | succ m' => exact ih n' m' a (fun h => hnm (congrArg Nat.succ h))

theorem lnth_append_self {α : Type} :
    ∀ (l : List α) (a : α), lnth (l ++ [a]) l.length = some a
  | [], _ => rfl
  | _ :: t, a => lnth_append_self t a

theorem lnth_append_ne {α : Type} :
    ∀ (l : List α) (a : α) (n : Nat), n ≠ l.length → lnth (l ++ [a]) n = lnth l n := by
  intro l
  induction l with
  | nil =>
    intro a n h
    cases n with
    | zero => exact absurd rfl h
    | succ m => cases m <;> rfl
  | cons x t ih =>
    intro a n h
    cases n with
    | zero => rfl
    | succ m => exact ih a m (fun he => h (congrArg Nat.succ he))

theorem firstFree_le_length : ∀ l : List (Bool × DataInner), firstFree l ≤ l.length
  | [] => Nat.le_refl 0
  | (true, _) :: t => Nat.succ_le_succ (firstFree_le_length t)
  | (false, _) :: _ => Nat.zero_le _

theorem firstFree_free : ∀ (l : List (Bool × DataInner)) (s : Bool × DataInner),
    lnth l (firstFree l) = some s → s.1 = false := by
  intro l
  induction l with
  | nil => intro s h; cases h
  | cons x t ih =>
    intro s h
    match x with
    | (true, d) => exact ih s h
    | (false, d) => cases h; rfl

theorem firstFree_lset_occupied :
    ∀ (l : List (Bool × DataInner)) (i : Nat) (d d0 : DataInner),
      lnth l i = some (true, d0) → firstFree (lset l i (true, d)) = firstFree l := by
  intro l
  induction l with
  | nil => intro i d d0 h; cases h
  | cons x t ih =>
    intro i d d0 h
    cases i with
    | zero =>
      cases h
      rfl
    | succ n =>
      match x with
      | (true, _) => exact congrArg (· + 1) (ih n d d0 h)
      | (false, _) => rfl

theorem trackerLookup_remove_ne :
    ∀ (t : List (Nat × SpanInfo)) (id id' : Nat), id' ≠ id →
      trackerLookup (trackerRemove t id) id' = trackerLookup t id' := by
  intro t
  induction t with
  | nil => intro id id' _; rfl
  | cons x r ih =>
    intro id id' h
    match x with
    | (k, v) =>
      by_cases hk : k = id
      · simp only [trackerRemove, if_pos hk]
        rw [ih id id' h]
        simp only [trackerLookup, if_neg (fun he : k = id' => h (he ▸ hk ▸ rfl))]
      · simp only [trackerRemove, if_neg hk, trackerLookup]
        by_cases hk' : k = id'
        · simp only [if_pos hk']
        · simp only [if_neg hk']
          exact ih id id' h

theorem trackerLookup_insert_self (t : List (Nat × SpanInfo)) (id : Nat) (info : SpanInfo) :
    trackerLookup (trackerInsert t id info) id = some info := by
  simp [trackerInsert, trackerLookup]

theorem trackerLookup_insert_ne (t : List (Nat × SpanInfo)) (id id' : Nat) (info : SpanInfo)
    (h : id' ≠ id) :
    trackerLookup (trackerInsert t id info) id' = trackerLookup t id' := by
  simp only [trackerInsert, trackerLookup, if_neg (fun he : id = id' => h he.symm)]
  exact trackerLookup_remove_ne t id id' h

theorem get_lnth {r : Registry} {id : Nat} {d : DataInner} (h : r.get id = some d) :
    lnth r.spans.slots (id_to_idx id) = some (true, d) := by
  unfold Registry.get Pool.get at h
  cases hl : lnth r.spans.slots (id_to_idx id) with
  | none => rw [hl] at h; cases h
  | some s =>
    rw [hl] at h
    obtain ⟨b, dd⟩ := s
    cases b with
    | false => cases h
    | true =>
      injection h with h'
      rw [h']

theorem get_setData_self {r : Registry} {id : Nat} {d0 : DataInner} (d : DataInner)
    (h : r.get id = some d0) : (r.setData id d).get id = some d := by
  have hl := get_lnth h
  have hlt := lnth_lt_of_some _ _ _ hl
  show (match lnth (lset r.spans.slots (id_to_idx id) (true, d)) (id_to_idx id) with
        | some (true, x) => some x
        | _ => none) = some d
  rw [lnth_lset_self _ _ _ hlt]

theorem get_setData_ne (r : Registry) (i j : Nat) (d : DataInner)
    (hi : 1 ≤ i) (hj : 1 ≤ j) (hne : i ≠ j) : (r.setData i d).get j = r.get j := by
  show (match lnth (lset r.spans.slots (id_to_idx i) (true, d)) (id_to_idx j) with
        | some (true, x) => some x
        | _ => none) = r.get j
  rw [lnth_lset_ne]
  · rfl
  · unfold id_to_idx
    omega

@[simp] theorem setData_tracker (r : Registry) (id : Nat) (d : DataInner) :
    (r.setData id d).tracker = r.tracker := rfl

@[simp] theorem setData_closeCount (r : Registry) (id : Nat) (d : DataInner) :
    (r.setData id d).closeCount = r.closeCount := rfl

@[simp] theorem setData_panicking (r : Registry) (id : Nat) (d : DataInner) :
    (r.setData id d).panicking = r.panicking := rfl

@[simp] theorem setData_openSpans (r : Registry) (id : Nat) (d : DataInner) :
    (r.setData id d).openSpans = r.openSpans := rfl

@[simp] theorem setData_liveSpans (r : Registry) (id : Nat) (d : DataInner) :
    (r.setData id d).liveSpans = r.liveSpans := rfl

@[simp] theorem setData_currentSpans (r : Registry) (id : Nat) (d : DataInner) :
    (r.setData id d).currentSpans = r.currentSpans := rfl

@[simp] theorem setData_filterCtx (r : Registry) (id : Nat) (d : DataInner) :
    (r.setData id d).filterCtx = r.filterCtx := rfl

theorem rcAdd1_eq {n : Nat} (h : n < usizeMax) : rcAdd1 n = n + 1 := by
  unfold rcAdd1
  apply Nat.mod_eq_of_lt
  have hs : usizeMax + 1 = usizeSize := by norm_num [usizeMax, usizeSize]
  omega

theorem rcSub1_eq {n : Nat} (h : 1 ≤ n) : rcSub1 n = n - 1 := by
  unfold rcSub1
  rw [if_neg]
  omega

theorem rcSub1_one : rcSub1 1 = 0 := rfl

/-- Computation of `try_close` on a live span holding its final reference. -/
theorem try_close_last (r : Registry) (id : Nat) (d : DataInner)
    (hget : r.get id = some d) (hrc : d.ref_count = 1) (hp : r.panicking = false) :
    r.try_close id =
      Except.ok ({ r.setData id { d with ref_count := 0 } with
                     tracker := trackerRemove r.tracker id,
                     openSpans := r.openSpans - 1 },
        true, [AtomicEvent.rcSub MemOrder.release, AtomicEvent.fence MemOrder.acquire]) := by
  simp only [Registry.try_close, hget]
  rw [hrc, hp]
  rw [if_neg (fun hh => absurd hh.2 (by decide : ¬ usizeMax ≤ 1))]
  rw [if_neg (by decide : ¬ 1 < 1)]
  rfl

/-- Computation of `try_close` on a live span with further references. -/
theorem try_close_decr (r : Registry) (id : Nat) (d : DataInner) (info : SpanInfo)
    (hget : r.get id = some d) (htr : trackerLookup r.tracker id = some info)
    (hrc : 1 < d.ref_count) (hmax : d.ref_count < usizeMax) (hp : r.panicking = false) :
    r.try_close id =
      Except.ok ({ r.setData id { d with ref_count := d.ref_count - 1 } with
                     tracker := trackerInsert r.tracker id
                       { info with too_many_refs := info.too_many_refs + 1 } },
        false, [AtomicEvent.rcSub MemOrder.release]) := by
  simp only [Registry.try_close, hget]
  rw [hp, rcSub1_eq (by omega)]
  rw [if_neg (fun hh => absurd hh.2 (fun hle => absurd (Nat.lt_of_lt_of_le hmax hle) (Nat.lt_irrefl _)))]
  rw [if_pos hrc]
  simp only [setData_tracker, htr]

/-- Computation of `clone_span` on a live span. -/
theorem clone_span_hit (r : Registry) (id : Nat) (d : DataInner) (info : SpanInfo)
    (hget : r.get id = some d) (htr : trackerLookup r.tracker id = some info)
    (h1 : 1 ≤ d.ref_count) (hmax : d.ref_count < usizeMax) :
    r.clone_span id =
      Except.ok ({ r.setData id { d with ref_count := d.ref_count + 1 } with
                     tracker := trackerInsert r.tracker id info }, id,
        [AtomicEvent.rcAdd MemOrder.relaxed]) := by
  simp only [Registry.clone_span, hget]
  rw [rcAdd1_eq hmax]
  rw [if_neg (by omega : ¬ d.ref_count = 0)]
  simp only [setData_tracker, htr]

theorem iterRegister_next : ∀ (n : Nat) (r : Registry), r.next_filter_id < 2 ^ 8 →
    (iterRegister n r).next_filter_id = (r.next_filter_id + n) % 2 ^ 8 := by
  intro n
  induction n with
  | zero =>
    intro r h
    show r.next_filter_id = (r.next_filter_id + 0) % 2 ^ 8
    rw [Nat.add_zero, Nat.mod_eq_of_lt h]
  | succ m ih =>
    intro r h
    show (iterRegister m (r.register_filter).1).next_filter_id = _
    rw [ih (r.register_filter).1 (Nat.mod_lt _ (by norm_num))]
    show ((r.next_filter_id + 1) % 2 ^ 8 + m) % 2 ^ 8 = (r.next_filter_id + (m + 1)) % 2 ^ 8
    rw [Nat.mod_add_mod]
    congr 1
    omega

/-! ## The claims -/

/-- C7: the span id encoding is `id = slot key + 1`, so every generated id
is non-zero, and the two conversion functions are mutually inverse: for
every key `k` the round-trip through `idx_to_id` and `id_to_idx` yields `k`
again, and for every non-zero id the reverse round-trip is the identity. -/
theorem id_encoding_inverse :
    (∀ k, idx_to_id k = k + 1) ∧ (∀ k, idx_to_id k ≠ 0) ∧
    (∀ k, id_to_idx (idx_to_id k) = k) ∧ (∀ i, i ≠ 0 → idx_to_id (id_to_idx i) = i) := by
  refine ⟨fun k => rfl, fun k => Nat.succ_ne_zero k, fun k => rfl, fun i hi => ?_⟩
  unfold idx_to_id id_to_idx
  omega

theorem id_encoding_inverse_witness :
    (5 : Nat) ≠ 0 ∧ idx_to_id (id_to_idx 5) = 5 :=
  ⟨by decide, id_encoding_inverse.2.2.2 5 (by decide)⟩

/-- C9: `current_span` is a total function (no panic path exists in it): it
returns the none value when the thread's stack was never initialized, when
the stack is empty, and when the top-of-stack id no longer resolves to a
live slot in the pool; only when the top id resolves does it return that id
paired with the entry's metadata. -/
theorem current_span_total (r : Registry) :
    (r.currentSpans = none → r.current_span = none) ∧
    (∀ st, r.currentSpans = some st → st.current = none → r.current_span = none) ∧
    (∀ st id, r.currentSpans = some st → st.current = some id → r.get id = none →
      r.current_span = none) ∧
    (∀ st id d, r.currentSpans = some st → st.current = some id → r.get id = some d →
      r.current_span = some (id, d.metadata)) := by
  refine ⟨fun h => ?_, fun st h hc => ?_, fun st id h hc hg => ?_, fun st id d h hc hg => ?_⟩
  · simp [Registry.current_span, h]
  · simp [Registry.current_span, h, hc]
  · simp [Registry.current_span, h, hc, hg]
  · simp [Registry.current_span, h, hc, hg]

theorem current_span_total_witness :
    regW.currentSpans = some ⟨[(1, 1)]⟩ ∧ regW.current_span = some (1, 7) :=
  ⟨rfl, (current_span_total regW).2.2.2 ⟨[(1, 1)]⟩ 1 dW rfl rfl rfl⟩

/-- C10: the filter-id counter backing `register_filter` is 8 bits wide.
Successive calls on a fresh registry return the ordinals 0, 1, 2, …; the
increment performed by the 256th registration wraps the counter back to 0
modulo `2 ^ 8` (release wrapping semantics of `u8` addition), after which
`has_per_layer_filters` — defined as `next_filter_id > 0` — reports `false`
even though filters have been registered. -/
theorem register_filter_u8_wraps :
    (∀ n, n < 2 ^ 8 → ((iterRegister n Registry.init).register_filter).2 = n) ∧
    (iterRegister 255 Registry.init).next_filter_id = 255 ∧
    (iterRegister 256 Registry.init).next_filter_id = 0 ∧
    (iterRegister 255 Registry.init).has_per_layer_filters = true ∧
    (iterRegister 256 Registry.init).has_per_layer_filters = false := by
  have hinit : Registry.init.next_filter_id < 2 ^ 8 := by norm_num [Registry.init]
  have key : ∀ n, (iterRegister n Registry.init).next_filter_id = n % 2 ^ 8 := by
    intro n
    rw [iterRegister_next n Registry.init hinit]
    show (0 + n) % 2 ^ 8 = n % 2 ^ 8
    rw [Nat.zero_add]
  refine ⟨fun n hn => ?_, ?_, ?_, ?_, ?_⟩
  · show (iterRegister n Registry.init).next_filter_id = n
    rw [key n]
    exact Nat.mod_eq_of_lt hn
  · rw [key 255]
    decide
  · rw [key 256]
    decide
  · show decide (0 < (iterRegister 255 Registry.init).next_filter_id) = true
    rw [key 255]
    decide
  · show decide (0 < (iterRegister 256 Registry.init).next_filter_id) = false
    rw [key 256]
    decide

theorem register_filter_u8_wraps_witness :
    (3 : Nat) < 2 ^ 8 ∧ ((iterRegister 3 Registry.init).register_filter).2 = 3 :=
  ⟨by norm_num, register_filter_u8_wraps.1 3 (by norm_num)⟩

/-- C3 (refuting the unconditional no-panic claim): when `try_close` is
called with an id that has no live slot while the thread is panicking, the
source bumps the diagnostic tracker entry through
`SPAN_TRACKER.get_mut(&id).unwrap()` before returning `false`.  When the
tracker still holds an entry for the id the call indeed swallows the error
and returns `false`; but when the tracker entry is absent — e.g. for an id
whose span was fully closed and reclaimed, or one that never existed — the
`unwrap` itself panics, defeating the double-panic protection the branch
exists to provide. -/
theorem try_close_stale_while_panicking :
    Registry.try_close panickingReg 1 = Except.error PanicMsg.unwrapNone ∧
    Registry.try_close { panickingReg with tracker := [(1, SpanInfo.zero)] } 1 =
      Except.ok ({ panickingReg with tracker := [(1, { too_many_refs := 0, panicking := 1 })] },
        false, []) :=
  ⟨rfl, rfl⟩

/-- C2: on a live span id, `try_close` decrements the entry's `ref_count`
with release ordering; when the prior value was greater than 1 it returns
`false`, and when the prior value was exactly 1 it additionally executes an
acquire fence and returns `true`.  In both cases the slot stays checked out
(holding the decremented count): `try_close` itself never clears it. -/
theorem try_close_live_spec (r : Registry) (id : Nat) (d : DataInner) (info : SpanInfo)
    (hget : r.get id = some d) (htr : trackerLookup r.tracker id = some info)
    (h1 : 1 ≤ d.ref_count) (hmax : d.ref_count < usizeMax) (hp : r.panicking = false) :
    ∃ r', r.try_close id =
        Except.ok (r', decide (d.ref_count = 1),
          if d.ref_count = 1
          then [AtomicEvent.rcSub MemOrder.release, AtomicEvent.fence MemOrder.acquire]
          else [AtomicEvent.rcSub MemOrder.release]) ∧
      r'.get id = some { d with ref_count := d.ref_count - 1 } := by
  by_cases hone : d.ref_count = 1
  · refine ⟨{ r.setData id { d with ref_count := 0 } with
              tracker := trackerRemove r.tracker id,
              openSpans := r.openSpans - 1 }, ?_, ?_⟩
    · rw [try_close_last r id d hget hone hp, if_pos hone]
      simp [hone]
    · show (r.setData id { d with ref_count := 0 }).get id = _
      rw [get_setData_self _ hget, hone]
  · have hgt : 1 < d.ref_count := by omega
    refine ⟨{ r.setData id { d with ref_count := d.ref_count - 1 } with
              tracker := trackerInsert r.tracker id
                { info with too_many_refs := info.too_many_refs + 1 } }, ?_, ?_⟩
    · rw [try_close_decr r id d info hget htr hgt hmax hp, if_neg hone]
      simp [hone]
    · show (r.setData id { d with ref_count := d.ref_count - 1 }).get id = _
      rw [get_setData_self _ hget]

theorem try_close_live_spec_witness :
    1 ≤ dW.ref_count ∧
    (Registry.try_close regW 1).toOption.map (fun x => x.2.1) = some true := by
  refine ⟨by decide, ?_⟩
  obtain ⟨r', he, -⟩ :=
    try_close_live_spec regW 1 dW SpanInfo.zero rfl rfl (by decide) (by decide) rfl
  rw [he]
  rfl

/-- C5: `clone_span` panics with a diagnostic naming the id when no live
slot exists for it; otherwise it increments the entry's `ref_count` with
relaxed ordering, asserts that the prior count was non-zero (panicking when
the assertion fails), and returns an id equal to the input.  The tracker
refresh requires the diagnostic `SPAN_TRACKER` entry to be present. -/
theorem clone_span_spec (r : Registry) (id : Nat) :
    (r.get id = none → r.clone_span id = Except.error (PanicMsg.noSpanOnClone id)) ∧
    (∀ d, r.get id = some d → d.ref_count = 0 →
      r.clone_span id = Except.error (PanicMsg.spanAlreadyClosed id)) ∧
    (∀ d info, r.get id = some d → trackerLookup r.tracker id = some info →
      1 ≤ d.ref_count → d.ref_count < usizeMax →
      ∃ r', r.clone_span id = Except.ok (r', id, [AtomicEvent.rcAdd MemOrder.relaxed]) ∧
        r'.get id = some { d with ref_count := d.ref_count + 1 }) := by
  refine ⟨fun h => ?_, fun d hget h0 => ?_, fun d info hget htr h1 hmax => ?_⟩
  · simp [Registry.clone_span, h]
  · simp only [Registry.clone_span, hget]
    rw [if_pos h0]
  · rw [clone_span_hit r id d info hget htr h1 hmax]
    refine ⟨_, rfl, ?_⟩
    show (r.setData id { d with ref_count := d.ref_count + 1 }).get id = _
    rw [get_setData_self _ hget]

theorem clone_span_spec_witness :
    1 ≤ dW.ref_count ∧
    (Registry.clone_span regW 1).toOption.map (fun x => x.2.1) = some 1 := by
  refine ⟨by decide, ?_⟩
  obtain ⟨r', he, -⟩ :=
    (clone_span_spec regW 1).2.2 dW SpanInfo.zero rfl rfl (by decide) (by decide)
  rw [he]
  rfl

/-- Computation of `clearPoolSlot` on a checked-out slot holding a root
span: no close attempt is dispatched, the slot is released holding its
cleared data. -/
theorem clearPoolSlot_root (fuel : Nat) (r : Registry) (id : Nat) (d : DataInner)
    (hget : r.get id = some d) (hpar : d.parent = none) :
    clearPoolSlot fuel r (id_to_idx id) =
      Except.ok ({ r with spans := r.spans.freeAt (id_to_idx id) (DataInner.clear d).1 }, []) := by
  have hget' : Pool.get r.spans (id_to_idx id) = some d := hget
  simp only [clearPoolSlot, hget', hpar]

/-- C1: on `CloseGuard` drop, the thread-local close depth is decremented
before any reclamation: reclamation — clearing the span's slot via the pool
— happens exactly when the pre-decrement depth was 1 and the guard's
`is_closing` flag is set, and it runs against the state in which the depth
has already been stored back decremented (so a nested close triggered by
releasing the parent sees the decremented depth).  In every other case the
drop performs no reclamation and only decrements the depth. -/
theorem closeGuard_drop_spec (fuel : Nat) (g : CloseGuard) (r : Registry)
    (hc : 1 ≤ r.closeCount) :
    (¬(r.closeCount = 1 ∧ g.is_closing = true) →
      CloseGuard.drop fuel g r true =
        Except.ok ({ r with closeCount := r.closeCount - 1 }, [])) ∧
    (r.closeCount = 1 → g.is_closing = true →
      CloseGuard.drop fuel g r true =
        match clearPoolSlot fuel { r with closeCount := 0 } (id_to_idx g.id) with
        | Except.error e => Except.error e
        | Except.ok (r2, l) => Except.ok ({ r2 with liveSpans := r2.liveSpans - 1 }, l)) ∧
    (∀ d, r.closeCount = 1 → g.is_closing = true → r.get g.id = some d → d.parent = none →
      CloseGuard.drop fuel g r true =
        Except.ok ({ r with closeCount := 0,
                            spans := r.spans.freeAt (id_to_idx g.id) (DataInner.clear d).1,
                            liveSpans := r.liveSpans - 1 }, [])) := by
  refine ⟨fun hno => ?_, fun h1 h2 => ?_, fun d h1 h2 hget hpar => ?_⟩
  · simp only [CloseGuard.drop, if_true, if_neg hno]
    rw [rcSub1_eq hc]
  · simp only [CloseGuard.drop, if_true, if_pos (And.intro h1 h2)]
    rw [rcSub1_eq hc, h1]
  · simp only [CloseGuard.drop, if_true, if_pos (And.intro h1 h2)]
    rw [rcSub1_eq hc, h1]
    have hget1 : Registry.get { r with closeCount := 1 - 1 } g.id = some d := hget
    rw [clearPoolSlot_root fuel { r with closeCount := 1 - 1 } g.id d hget1 hpar]

theorem pool_get_lnth {p : Pool} {idx : Nat} {d : DataInner} (h : p.get idx = some d) :
    lnth p.slots idx = some (true, d) := by
  unfold Pool.get at h
  cases hl : lnth p.slots idx with
  | none => rw [hl] at h; cases h
  | some s =>
    rw [hl] at h
    obtain ⟨b, dd⟩ := s
    cases b with
    | false => cases h
    | true =>
      injection h with h'
      rw [h']

theorem pool_get_setAt_self (p : Pool) (idx : Nat) (d0 d : DataInner)
    (h : p.get idx = some d0) : (p.setAt idx d).get idx = some d := by
  show (match lnth (lset p.slots idx (true, d)) idx with
        | some (true, x) => some x
        | _ => none) = some d
  rw [lnth_lset_self _ _ _ (lnth_lt_of_some _ _ _ (pool_get_lnth h))]

theorem pool_get_setAt_ne (p : Pool) (i j : Nat) (d : DataInner) (hne : i ≠ j) :
    (p.setAt i d).get j = p.get j := by
  show (match lnth (lset p.slots i (true, d)) j with
        | some (true, x) => some x
        | _ => none) = p.get j
  rw [lnth_lset_ne _ _ _ _ hne]
  rfl

theorem id_to_idx_ne {i j : Nat} (hi : 1 ≤ i) (hj : 1 ≤ j) (hne : i ≠ j) :
    id_to_idx i ≠ id_to_idx j := by
  unfold id_to_idx
  omega

theorem listHas_false_ne : ∀ (l : List Nat) (y : Nat), listHas l y = false →
    ∀ x, x ∈ l → x ≠ y := by
  intro l
  induction l with
  | nil => intro y _ x hx; cases hx
  | cons a tl ih =>
    intro y h x hx
    simp only [listHas, Bool.or_eq_false_iff, decide_eq_false_iff_not] at h
    cases hx with
    | head => exact h.1
    | tail _ hx' => exact ih y h.2 x hx'

theorem noDup_cons {a : Nat} {tl : List Nat} (h : noDup (a :: tl) = true) :
    (∀ x, x ∈ tl → x ≠ a) ∧ noDup tl = true := by
  simp only [noDup, Bool.and_eq_true, Bool.not_eq_true'] at h
  exact ⟨fun x hx => listHas_false_ne tl a h.1 x hx, h.2⟩

theorem chainOK_pos : ∀ (l : List Nat) (r : Registry), chainOK r l = true →
    ∀ x, x ∈ l → 1 ≤ x := by
  intro l
  induction l with
  | nil => intro r _ x hx; cases hx
  | cons a tl ih =>
    intro r h x hx
    cases hg : r.get a with
    | none =>
      simp only [chainOK, hg] at h
      simp at h
    | some d =>
      simp only [chainOK, hg, Bool.and_eq_true, decide_eq_true_eq] at h
      cases hx with
      | head => exact h.1
      | tail _ hx' => exact ih r h.2.2 x hx'

theorem chainOK_congr : ∀ (l : List Nat) (r r' : Registry),
    (∀ x, x ∈ l → r'.get x = r.get x) → chainOK r l = true → chainOK r' l = true := by
  intro l
  induction l with
  | nil => intro r r' _ _; rfl
  | cons a tl ih =>
    intro r r' hsame h
    have ha : r'.get a = r.get a := hsame a (List.mem_cons_self a tl)
    cases hg : r.get a with
    | none =>
      simp only [chainOK, hg] at h
      simp at h
    | some d =>
      simp only [chainOK, hg, Bool.and_eq_true] at h
      simp only [chainOK, ha, hg, Bool.and_eq_true]
      exact ⟨h.1, h.2.1, ih r r' (fun x hx => hsame x (List.mem_cons_of_mem a hx)) h.2.2⟩

/-- One step of the modelled dispatcher on a root span holding its final
reference at close depth zero. -/
theorem dispatch_step_root (fuel : Nat) (r : Registry) (id : Nat) (d : DataInner)
    (hg : r.get id = some d) (hrc : d.ref_count = 1) (hp : r.panicking = false)
    (hcc : r.closeCount = 0) (hpar : d.parent = none) :
    dispatchTryClose (fuel + 1) r id =
      Except.ok ({ postClose r id d with
                     spans := (postClose r id d).spans.freeAt (id_to_idx id)
                       (DataInner.clear { d with ref_count := 0 }).1,
                     liveSpans := r.liveSpans - 1 }, true, [id]) := by
  have hg' : Pool.get r.spans (id_to_idx id) = some d := hg
  have hget2 : Pool.get (Pool.setAt r.spans (id_to_idx id) { d with ref_count := 0 })
      (id_to_idx id) = some { d with ref_count := 0 } := pool_get_setAt_self _ _ _ _ hg'
  simp only [dispatchTryClose, try_close_last r id d hg hrc hp, Registry.setData, hcc,
    Nat.zero_add, rcSub1_one, if_true]
  rw [hget2]
  simp only [hpar, postClose, Registry.setData]

/-- One step of the modelled dispatcher on a child span holding its final
reference at close depth zero: the nested close attempt for the parent is
dispatched before the child's slot is released. -/
theorem dispatch_step_child (fuel : Nat) (r : Registry) (id : Nat) (d : DataInner) (p : Nat)
    (hg : r.get id = some d) (hrc : d.ref_count = 1) (hp : r.panicking = false)
    (hcc : r.closeCount = 0) (hpar : d.parent = some p) :
    dispatchTryClose (fuel + 1) r id =
      match dispatchTryClose fuel (postClose r id d) p with
      | Except.error e => Except.error e
      | Except.ok (r4, _, l) =>
        Except.ok ({ r4 with
          spans := r4.spans.freeAt (id_to_idx id) (DataInner.clear { d with ref_count := 0 }).1,
          liveSpans := r4.liveSpans - 1 }, true, id :: l) := by
  have hg' : Pool.get r.spans (id_to_idx id) = some d := hg
  have hget2 : Pool.get (Pool.setAt r.spans (id_to_idx id) { d with ref_count := 0 })
      (id_to_idx id) = some { d with ref_count := 0 } := pool_get_setAt_self _ _ _ _ hg'
  simp only [dispatchTryClose, try_close_last r id d hg hrc hp, Registry.setData, hcc,
    Nat.zero_add, rcSub1_one, if_true]
  rw [hget2]
  simp only [hpar, postClose, Registry.setData]

/-- An orphaned chain closes child first, then each ancestor in order: the
modelled dispatcher emits the close notifications exactly in chain order. -/
theorem cascade_close_order : ∀ (ids : List Nat) (r : Registry) (id : Nat) (rest : List Nat),
    ids = id :: rest → chainOK r ids = true → noDup ids = true →
    r.closeCount = 0 → r.panicking = false →
    ∃ r', dispatchTryClose ids.length r id = Except.ok (r', true, ids) := by
  intro ids
  induction ids with
  | nil => intro r id rest h _ _ _ _; cases h
  | cons a tl ih =>
    intro r id rest heq hchain hnd hcc hp
    cases heq
    cases hg : r.get a with
    | none =>
      simp only [chainOK, hg] at hchain
      simp at hchain
    | some d =>
      simp only [chainOK, hg, Bool.and_eq_true, decide_eq_true_eq] at hchain
      obtain ⟨ha1, ⟨hrc, hm⟩, htl⟩ := hchain
      cases tl with
      | nil =>
        have hpar : d.parent = none := of_decide_eq_true hm
        exact ⟨_, dispatch_step_root 0 r a d hg hrc hp hcc hpar⟩
      | cons p rest' =>
        have hpar : d.parent = some p := of_decide_eq_true hm
        obtain ⟨hne, hnd'⟩ := noDup_cons hnd
        have hsame : ∀ x, x ∈ (p :: rest') → (postClose r a d).get x = r.get x := by
          intro x hx
          have hx1 : 1 ≤ x := chainOK_pos _ _ htl x hx
          have hxa : x ≠ a := hne x hx
          show (Pool.setAt r.spans (id_to_idx a) { d with ref_count := 0 }).get (id_to_idx x)
            = r.get x
          rw [pool_get_setAt_ne _ _ _ _ (id_to_idx_ne ha1 hx1 (fun he => hxa he.symm))]
          rfl
        have hch3 : chainOK (postClose r a d) (p :: rest') = true :=
          chainOK_congr _ r (postClose r a d) hsame htl
        obtain ⟨r4, hrec⟩ := ih (postClose r a d) p rest' rfl hch3 hnd' rfl hp
        refine ⟨{ r4 with
          spans := r4.spans.freeAt (id_to_idx a) (DataInner.clear { d with ref_count := 0 }).1,
          liveSpans := r4.liveSpans - 1 }, ?_⟩
        show dispatchTryClose ((p :: rest').length + 1) r a = _
        rw [dispatch_step_child ((p :: rest').length) r a d p hg hrc hp hcc hpar, hrec]

theorem closeGuard_drop_spec_witness :
    1 ≤ regCG.closeCount ∧
    CloseGuard.drop 1 ⟨1, true⟩ regCG true =
      Except.ok ({ regCG with closeCount := 0,
                              spans := regCG.spans.freeAt 0 (DataInner.clear dW).1,
                              liveSpans := regCG.liveSpans - 1 }, []) :=
  ⟨by decide, (closeGuard_drop_spec 1 ⟨1, true⟩ regCG (by decide)).2.2 dW rfl rfl rfl rfl⟩

/-- C4: `DataInner::clear` submits exactly one close attempt for the parent
id (when a parent is present, none otherwise) through the active default
subscriber — a dispatcher request, not a direct registry call — then clears
the extensions map in place retaining its capacity (the poison flag of the
lock is tolerated: the clear is total and independent of it), and resets
the filter map to its default.  Consequently, a chain of spans each holding
the last reference to its parent closes in child-to-ancestor order: the
modelled dispatcher emits the close notifications exactly in chain order. -/
theorem dataInner_clear_spec :
    (∀ d p, d.parent = some p → (DataInner.clear d).2 = [CloseReq.viaDispatcher p]) ∧
    (∀ d, d.parent = none → (DataInner.clear d).2 = []) ∧
    (∀ d : DataInner, (DataInner.clear d).1.extensions.entries = [] ∧
      (DataInner.clear d).1.extensions.cap = d.extensions.cap ∧
      (DataInner.clear d).1.filter_map = 0 ∧
      (DataInner.clear d).1.parent = none ∧
      (DataInner.clear d).1.ext_poisoned = d.ext_poisoned) ∧
    (∀ (ids : List Nat) (r : Registry) (id : Nat) (rest : List Nat),
      ids = id :: rest → chainOK r ids = true → noDup ids = true →
      r.closeCount = 0 → r.panicking = false →
      ∃ r', dispatchTryClose ids.length r id = Except.ok (r', true, ids)) := by
  refine ⟨fun d p hp => ?_, fun d hp => ?_, fun d => ⟨rfl, rfl, rfl, rfl, rfl⟩,
    cascade_close_order⟩
  · simp [DataInner.clear, hp]
  · simp [DataInner.clear, hp]

theorem dataInner_clear_spec_witness :
    chainOK regChain [1, 2] = true ∧
    (dispatchTryClose 2 regChain 1).toOption.map (fun x => x.2.2) = some [1, 2] := by
  refine ⟨by decide, ?_⟩
  obtain ⟨r', he⟩ :=
    dataInner_clear_spec.2.2.2 [1, 2] regChain 1 [2] rfl (by decide) (by decide) rfl rfl
  have he' : dispatchTryClose 2 regChain 1 = Except.ok (r', true, [1, 2]) := he
  rw [he']
  rfl

/-- Popping the id just pushed undoes the push: the pop reports full
removal exactly when the push reported the id as newly present at the top,
and the stack is restored. -/
theorem pop_push (st : SpanStack) (id : Nat) (hwf : stackCountsPos st.stack = true) :
    (st.push id).2.pop id = ((st.push id).1, st) := by
  obtain ⟨l⟩ := st
  cases l with
  | nil => simp [SpanStack.push, SpanStack.pop, popList]
  | cons hd tl =>
    obtain ⟨tid, n⟩ := hd
    simp only [stackCountsPos, Bool.and_eq_true, decide_eq_true_eq] at hwf
    by_cases h : tid = id
    · subst h
      have hn0 : ¬ n = 0 := by omega
      simp [SpanStack.push, SpanStack.pop, popList, hn0]
    · simp [SpanStack.push, SpanStack.pop, popList, h]

/-- Computation of `enter` on a live span with an initialized stack. -/
theorem enter_eq (r : Registry) (id : Nat) (d : DataInner) (info : SpanInfo) (st : SpanStack)
    (hget : r.get id = some d) (htr : trackerLookup r.tracker id = some info)
    (h1 : 1 ≤ d.ref_count) (hmax : d.ref_count < usizeMax)
    (hst : r.currentSpans = some st) :
    r.enter id =
      if (st.push id).1 then
        Except.ok { r with
          currentSpans := some (st.push id).2,
          spans := r.spans.setAt (id_to_idx id) { d with ref_count := d.ref_count + 1 },
          tracker := trackerInsert r.tracker id info,
          inSpans := r.inSpans + 1 }
      else
        Except.ok { r with currentSpans := some (st.push id).2, inSpans := r.inSpans + 1 } := by
  cases hpush : st.push id with
  | mk pushed st' =>
    cases pushed with
    | false => simp only [Registry.enter, hst, hpush, if_false, Bool.false_eq_true]
    | true =>
      have hget1 : Registry.get { r with currentSpans := some st' } id = some d := hget
      have htr1 : trackerLookup ({ r with currentSpans := some st' } : Registry).tracker id
          = some info := htr
      simp only [Registry.enter, hst, hpush, if_true,
        clone_span_hit { r with currentSpans := some st' } id d info hget1 htr1 h1 hmax,
        Registry.setData]

/-- Computation of `exit` when the pop does not fully remove the entry. -/
theorem exit_eq_pop_false (fuel : Nat) (r : Registry) (id : Nat) (st st2 : SpanStack)
    (hst : r.currentSpans = some st) (hpop : st.pop id = (false, st2)) :
    Registry.exit fuel r id =
      Except.ok { r with currentSpans := some st2, inSpans := r.inSpans - 1 } := by
  simp only [Registry.exit, hst, hpop, if_false, Bool.false_eq_true]

/-- Computation of `exit` when the pop fully removes the entry: one close
attempt is submitted through the modelled dispatcher. -/
theorem exit_eq_pop_true (fuel : Nat) (r : Registry) (id : Nat) (st st2 : SpanStack)
    (hst : r.currentSpans = some st) (hpop : st.pop id = (true, st2)) :
    Registry.exit fuel r id =
      match dispatchTryClose fuel { r with currentSpans := some st2 } id with
      | Except.error e => Except.error e
      | Except.ok x => Except.ok { x.1 with inSpans := x.1.inSpans - 1 } := by
  simp only [Registry.exit, hst, hpop, if_true]
  cases dispatchTryClose fuel { r with currentSpans := some st2 } id with
  | error e => rfl
  | ok x => rfl

/-- One step of the modelled dispatcher on a live span with further
references: the registry's `try_close` returns `false` and no close-guard
frame is entered. -/
theorem dispatch_decr (fuel : Nat) (r : Registry) (id : Nat) (d : DataInner) (info : SpanInfo)
    (hget : r.get id = some d) (htr : trackerLookup r.tracker id = some info)
    (hrc : 1 < d.ref_count) (hmax : d.ref_count < usizeMax) (hp : r.panicking = false) :
    dispatchTryClose (fuel + 1) r id =
      Except.ok ({ r with
        spans := r.spans.setAt (id_to_idx id) { d with ref_count := d.ref_count - 1 },
        tracker := trackerInsert r.tracker id
          { info with too_many_refs := info.too_many_refs + 1 } },
        false, []) := by
  simp only [dispatchTryClose, try_close_decr r id d info hget htr hrc hmax hp,
    Registry.setData]

/-- C8: on a live span id, `enter` pushes the id onto the calling thread's
stack and adds one reference via `clone_span` exactly when the push reports
the id as newly present at the top; `exit` pops the id and — exactly when
the pop fully removed the entry — releases one reference by dispatching a
close attempt through the active default dispatcher; consequently
`enter(id)` immediately followed by `exit(id)` (the id then being at the
top) leaves both the stack contents and the entry's `ref_count` unchanged. -/
theorem enter_exit_spec (fuel : Nat) (r : Registry) (id : Nat) (d : DataInner)
    (info : SpanInfo) (st : SpanStack)
    (hget : r.get id = some d) (htr : trackerLookup r.tracker id = some info)
    (h1 : 1 ≤ d.ref_count) (hmax : d.ref_count + 1 < usizeMax)
    (hst : r.currentSpans = some st) (hwf : stackCountsPos st.stack = true)
    (hp : r.panicking = false) (hfuel : 1 ≤ fuel) :
    (∀ pushed st', st.push id = (pushed, st') →
      ∃ r', r.enter id = Except.ok r' ∧ r'.currentSpans = some st' ∧
        r'.get id = some { d with
          ref_count := if pushed then d.ref_count + 1 else d.ref_count }) ∧
    (∀ st2, st.pop id = (false, st2) →
      Registry.exit fuel r id =
        Except.ok { r with currentSpans := some st2, inSpans := r.inSpans - 1 }) ∧
    (∀ st2, st.pop id = (true, st2) →
      Registry.exit fuel r id =
        match dispatchTryClose fuel { r with currentSpans := some st2 } id with
        | Except.error e => Except.error e
        | Except.ok x => Except.ok { x.1 with inSpans := x.1.inSpans - 1 }) ∧
    (∃ r'', (match r.enter id with
             | Except.error e => Except.error e
             | Except.ok r' => Registry.exit fuel r' id) = Except.ok r'' ∧
      r''.currentSpans = some st ∧ r''.get id = some d) := by
  have hmax' : d.ref_count < usizeMax := by omega
  refine ⟨?_, fun st2 hpop => exit_eq_pop_false fuel r id st st2 hst hpop,
    fun st2 hpop => exit_eq_pop_true fuel r id st st2 hst hpop, ?_⟩
  · intro pushed st' hpush
    rw [enter_eq r id d info st hget htr h1 hmax' hst, hpush]
    cases pushed with
    | false =>
      exact ⟨{ r with currentSpans := some st', inSpans := r.inSpans + 1 }, rfl, rfl, hget⟩
    | true =>
      refine ⟨{ r with
                currentSpans := some st',
                spans := r.spans.setAt (id_to_idx id) { d with ref_count := d.ref_count + 1 },
                tracker := trackerInsert r.tracker id info,
                inSpans := r.inSpans + 1 }, rfl, rfl, ?_⟩
      show (Pool.setAt r.spans (id_to_idx id)
        { d with ref_count := d.ref_count + 1 }).get (id_to_idx id) = _
      rw [pool_get_setAt_self r.spans (id_to_idx id) d _ hget]
      rfl
  · obtain ⟨f, rfl⟩ : ∃ f, fuel = f + 1 := ⟨fuel - 1, by omega⟩
    have hpp := pop_push st id hwf
    cases hpush : st.push id with
    | mk pushed st' =>
      rw [hpush] at hpp
      rw [enter_eq r id d info st hget htr h1 hmax' hst, hpush]
      cases pushed with
      | false =>
        refine ⟨{ r with
          currentSpans := some st,
          inSpans := r.inSpans + 1 - 1 }, ?_, rfl, hget⟩
        show Registry.exit (f + 1)
          { r with currentSpans := some st', inSpans := r.inSpans + 1 } id = _
        rw [exit_eq_pop_false (f + 1)
          { r with currentSpans := some st', inSpans := r.inSpans + 1 } id st' st rfl hpp]
      | true =>
        have hX : (r.spans.setAt (id_to_idx id)
            { d with ref_count := d.ref_count + 1 }).get (id_to_idx id)
            = some { d with ref_count := d.ref_count + 1 } :=
          pool_get_setAt_self r.spans (id_to_idx id) d _ hget
        have hgA2 : Registry.get { r with
            currentSpans := some st,
            spans := r.spans.setAt (id_to_idx id) { d with ref_count := d.ref_count + 1 },
            tracker := trackerInsert r.tracker id info,
            inSpans := r.inSpans + 1 } id = some { d with ref_count := d.ref_count + 1 } := hX
        have htA2 : trackerLookup (trackerInsert r.tracker id info) id = some info :=
          trackerLookup_insert_self r.tracker id info
        have hd := dispatch_decr f { r with
            currentSpans := some st,
            spans := r.spans.setAt (id_to_idx id) { d with ref_count := d.ref_count + 1 },
            tracker := trackerInsert r.tracker id info,
            inSpans := r.inSpans + 1 } id { d with ref_count := d.ref_count + 1 } info
          hgA2 htA2 (by show 1 < d.ref_count + 1; omega)
          (by show d.ref_count + 1 < usizeMax; exact hmax) hp
        refine ⟨{ r with
            currentSpans := some st,
            spans := (r.spans.setAt (id_to_idx id) { d with ref_count := d.ref_count + 1 }).setAt (id_to_idx id) { d with ref_count := d.ref_count + 1 - 1 },
            tracker := trackerInsert (trackerInsert r.tracker id info) id { info with too_many_refs := info.too_many_refs + 1 },
            inSpans := r.inSpans + 1 - 1 }, ?_, rfl, ?_⟩
        · show Registry.exit (f + 1) { r with
            currentSpans := some st',
            spans := r.spans.setAt (id_to_idx id) { d with ref_count := d.ref_count + 1 },
            tracker := trackerInsert r.tracker id info,
            inSpans := r.inSpans + 1 } id = _
          rw [exit_eq_pop_true (f + 1) { r with
            currentSpans := some st',
            spans := r.spans.setAt (id_to_idx id) { d with ref_count := d.ref_count + 1 },
            tracker := trackerInsert r.tracker id info,
            inSpans := r.inSpans + 1 } id st' st rfl hpp]
          rw [hd]
        · show ((r.spans.setAt (id_to_idx id)
            { d with ref_count := d.ref_count + 1 }).setAt (id_to_idx id)
            { d with ref_count := d.ref_count + 1 - 1 }).get (id_to_idx id) = some d
          rw [pool_get_setAt_self _ _ _ _ hX]
          rfl

theorem enter_exit_spec_witness :
    1 ≤ dW.ref_count ∧
    (match Registry.enter regW 1 with
     | Except.error e => Except.error e
     | Except.ok r' => Registry.exit 1 r' 1).toOption.map (fun x : Registry => x.currentSpans)
      = some (some ⟨[(1, 1)]⟩) := by
  refine ⟨by decide, ?_⟩
  obtain ⟨r'', he, hcs, -⟩ :=
    (enter_exit_spec 1 regW 1 dW SpanInfo.zero ⟨[(1, 1)]⟩ rfl rfl (by decide) (by decide)
      rfl (by decide) rfl (by decide)).2.2.2
  rw [he]
  show some r''.currentSpans = some (some (⟨[(1, 1)]⟩ : SpanStack))
  rw [hcs]

theorem lnth_none_le {α : Type} : ∀ (l : List α) (n : Nat), lnth l n = none → l.length ≤ n := by
  intro l
  induction l with
  | nil => intro n _; exact Nat.zero_le n
  | cons a t ih =>
    intro n h
    cases n with
    | zero => cases h
    | succ m => exact Nat.succ_le_succ (ih m h)

theorem create_with_key (p : Pool) (f : DataInner → DataInner) :
    (p.create_with f).2 = firstFree p.slots := by
  unfold Pool.create_with
  cases lnth p.slots (firstFree p.slots) <;> rfl

theorem create_with_get (p : Pool) (f : DataInner → DataInner) :
    ((p.create_with f).1).get (firstFree p.slots) = some (f p.seed) := by
  unfold Pool.create_with Pool.get Pool.seed
  cases hl : lnth p.slots (firstFree p.slots) with
  | some s =>
    simp only [hl]
    rw [lnth_lset_self _ _ _ (lnth_lt_of_some _ _ _ hl)]
  | none =>
    simp only [hl]
    have hlen : firstFree p.slots = p.slots.length :=
      Nat.le_antisymm (firstFree_le_length _) (lnth_none_le _ _ hl)
    rw [hlen, lnth_append_self]

theorem create_with_get_ne (p : Pool) (f : DataInner → DataInner) (j : Nat)
    (hne : j ≠ firstFree p.slots) : ((p.create_with f).1).get j = p.get j := by
  unfold Pool.create_with Pool.get
  cases hl : lnth p.slots (firstFree p.slots) with
  | some s =>
    simp only [hl]
    rw [lnth_lset_ne _ _ _ _ (fun h => hne h.symm)]
  | none =>
    simp only [hl]
    have hlen : firstFree p.slots = p.slots.length :=
      Nat.le_antisymm (firstFree_le_length _) (lnth_none_le _ _ hl)
    rw [lnth_append_ne _ _ _ (fun h => hne (h.trans hlen.symm))]

theorem get_firstFree (p : Pool) : p.get (firstFree p.slots) = none := by
  unfold Pool.get
  cases hl : lnth p.slots (firstFree p.slots) with
  | none => rfl
  | some s =>
    have hfree := firstFree_free p.slots s hl
    obtain ⟨b, dd⟩ := s
    cases b with
    | false => rfl
    | true => cases hfree

/-- C6: `new_span` resolves the parent as: none when the attributes declare
root; the calling thread's current top span, cloned via `clone_span`, when
the attributes are contextual; otherwise the explicit parent in the
attributes, cloned.  It checks out a slot whose initializer sets metadata,
parent, and the filter mask from the thread-local filter context, and
initializes `ref_count` to 1, and it returns the id derived (by
`idx_to_id`) from the slot key. -/
theorem new_span_spec (r : Registry) (attrs : Attributes) :
    (attrs.parentKind = ParentKind.root →
      ∃ r' d', r.new_span attrs = Except.ok (r', idx_to_id (firstFree r.spans.slots)) ∧
        r'.get (idx_to_id (firstFree r.spans.slots)) = some d' ∧
        d'.metadata = attrs.metadata ∧ d'.parent = none ∧
        d'.filter_map = r.filterCtx ∧ d'.ref_count = 1) ∧
    (∀ cid md d info, attrs.parentKind = ParentKind.contextual →
      r.current_span = some (cid, md) → r.get cid = some d →
      trackerLookup r.tracker cid = some info →
      1 ≤ d.ref_count → d.ref_count < usizeMax →
      ∃ r' d', r.new_span attrs = Except.ok (r', idx_to_id (firstFree r.spans.slots)) ∧
        r'.get (idx_to_id (firstFree r.spans.slots)) = some d' ∧
        d'.metadata = attrs.metadata ∧ d'.parent = some cid ∧
        d'.filter_map = r.filterCtx ∧ d'.ref_count = 1 ∧
        r'.get cid = some { d with ref_count := d.ref_count + 1 }) ∧
    (∀ p d info, attrs.parentKind = ParentKind.explicitId p →
      r.get p = some d → trackerLookup r.tracker p = some info →
      1 ≤ d.ref_count → d.ref_count < usizeMax →
      ∃ r' d', r.new_span attrs = Except.ok (r', idx_to_id (firstFree r.spans.slots)) ∧
        r'.get (idx_to_id (firstFree r.spans.slots)) = some d' ∧
        d'.metadata = attrs.metadata ∧ d'.parent = some p ∧
        d'.filter_map = r.filterCtx ∧ d'.ref_count = 1 ∧
        r'.get p = some { d with ref_count := d.ref_count + 1 }) := by
  refine ⟨fun hroot => ?_, fun cid md d info hctx hcur hgetp htr h1 hmax => ?_,
    fun p d info hexp hgetp htr h1 hmax => ?_⟩
  · refine ⟨{ r with
        spans := (r.spans.create_with (newSpanInit attrs.metadata none r.filterCtx)).1,
        tracker := trackerInsert r.tracker (idx_to_id (firstFree r.spans.slots)) SpanInfo.zero,
        liveSpans := r.liveSpans + 1,
        openSpans := r.openSpans + 1 },
      newSpanInit attrs.metadata none r.filterCtx r.spans.seed, ?_, ?_, rfl, rfl, rfl, rfl⟩
    · simp only [Registry.new_span, hroot, create_with_key]
    · exact create_with_get r.spans _
  · have hclone := clone_span_hit r cid d info hgetp htr h1 hmax
    have hSAget : (r.spans.setAt (id_to_idx cid) { d with ref_count := d.ref_count + 1 }).get
        (id_to_idx cid) = some { d with ref_count := d.ref_count + 1 } :=
      pool_get_setAt_self _ _ d _ hgetp
    have hln : lnth r.spans.slots (id_to_idx cid) = some (true, d) := pool_get_lnth hgetp
    have hff : firstFree (r.spans.setAt (id_to_idx cid)
        { d with ref_count := d.ref_count + 1 }).slots = firstFree r.spans.slots :=
      firstFree_lset_occupied r.spans.slots (id_to_idx cid) _ d hln
    have hne : id_to_idx cid ≠ firstFree (r.spans.setAt (id_to_idx cid)
        { d with ref_count := d.ref_count + 1 }).slots := by
      intro he
      have h2 := get_firstFree (r.spans.setAt (id_to_idx cid)
        { d with ref_count := d.ref_count + 1 })
      rw [← he] at h2
      rw [h2] at hSAget
      cases hSAget
    refine ⟨{ r with
        spans := ((r.spans.setAt (id_to_idx cid)
          { d with ref_count := d.ref_count + 1 }).create_with
          (newSpanInit attrs.metadata (some cid) r.filterCtx)).1,
        tracker := trackerInsert (trackerInsert r.tracker cid info)
          (idx_to_id (firstFree r.spans.slots)) SpanInfo.zero,
        liveSpans := r.liveSpans + 1,
        openSpans := r.openSpans + 1 },
      newSpanInit attrs.metadata (some cid) r.filterCtx
        (r.spans.setAt (id_to_idx cid) { d with ref_count := d.ref_count + 1 }).seed,
      ?_, ?_, rfl, rfl, rfl, rfl, ?_⟩
    · simp only [Registry.new_span, hctx, hcur, hclone, Registry.setData, create_with_key, hff]
    · show Pool.get ((r.spans.setAt (id_to_idx cid)
        { d with ref_count := d.ref_count + 1 }).create_with
        (newSpanInit attrs.metadata (some cid) r.filterCtx)).1 (firstFree r.spans.slots) = _
      rw [← hff]
      exact create_with_get _ _
    · show Pool.get ((r.spans.setAt (id_to_idx cid)
        { d with ref_count := d.ref_count + 1 }).create_with
        (newSpanInit attrs.metadata (some cid) r.filterCtx)).1 (id_to_idx cid) = _
      rw [create_with_get_ne _ _ _ hne]
      exact hSAget
  · have hclone := clone_span_hit r p d info hgetp htr h1 hmax
    have hSAget : (r.spans.setAt (id_to_idx p) { d with ref_count := d.ref_count + 1 }).get
        (id_to_idx p) = some { d with ref_count := d.ref_count + 1 } :=
      pool_get_setAt_self _ _ d _ hgetp
    have hln : lnth r.spans.slots (id_to_idx p) = some (true, d) := pool_get_lnth hgetp
    have hff : firstFree (r.spans.setAt (id_to_idx p)
        { d with ref_count := d.ref_count + 1 }).slots = firstFree r.spans.slots :=
      firstFree_lset_occupied r.spans.slots (id_to_idx p) _ d hln
    have hne : id_to_idx p ≠ firstFree (r.spans.setAt (id_to_idx p)
        { d with ref_count := d.ref_count + 1 }).slots := by
      intro he
      have h2 := get_firstFree (r.spans.setAt (id_to_idx p)
        { d with ref_count := d.ref_count + 1 })
      rw [← he] at h2
      rw [h2] at hSAget
      cases hSAget
    refine ⟨{ r with
        spans := ((r.spans.setAt (id_to_idx p)
          { d with ref_count := d.ref_count + 1 }).create_with
          (newSpanInit attrs.metadata (some p) r.filterCtx)).1,
        tracker := trackerInsert (trackerInsert r.tracker p info)
          (idx_to_id (firstFree r.spans.slots)) SpanInfo.zero,
        liveSpans := r.liveSpans + 1,
        openSpans := r.openSpans + 1 },
      newSpanInit attrs.metadata (some p) r.filterCtx
        (r.spans.setAt (id_to_idx p) { d with ref_count := d.ref_count + 1 }).seed,
      ?_, ?_, rfl, rfl, rfl, rfl, ?_⟩
    · simp only [Registry.new_span, hexp, hclone, Registry.setData, create_with_key, hff]
    · show Pool.get ((r.spans.setAt (id_to_idx p)
        { d with ref_count := d.ref_count + 1 }).create_with
        (newSpanInit attrs.metadata (some p) r.filterCtx)).1 (firstFree r.spans.slots) = _
      rw [← hff]
      exact create_with_get _ _
    · show Pool.get ((r.spans.setAt (id_to_idx p)
        { d with ref_count := d.ref_count + 1 }).create_with
        (newSpanInit attrs.metadata (some p) r.filterCtx)).1 (id_to_idx p) = _
      rw [create_with_get_ne _ _ _ hne]
      exact hSAget

theorem new_span_spec_witness :
    1 ≤ dW.ref_count ∧
    (Registry.new_span regW { parentKind := ParentKind.explicitId 1, metadata := 9 }).toOption.map
      (fun x : Registry × Nat => x.2) = some 2 := by
  refine ⟨by decide, ?_⟩
  obtain ⟨r', d', he, -⟩ := (new_span_spec regW ⟨ParentKind.explicitId 1, 9⟩).2.2 1 dW
    SpanInfo.zero rfl rfl rfl (by decide) (by decide)
  have he' : Registry.new_span regW ⟨ParentKind.explicitId 1, 9⟩ = Except.ok (r', 2) := he
  rw [he']
  rfl

end ShardedRegistry
